import Mathlib

/-!
Verification of the prompt-quality scoring and remediation engine of the
`prompt-prompter-dd` repository, as implemented by the frontend service code
(`frontend/services/apiService.ts`, concatenated segments: the client-side
quality analyzer `analyzePromptQuality`, the analysis driver `runAnalysis`,
and the process-wide constant tables of `frontend/constants.tsx`).

Scores are embedded as exact rationals (`ℚ`): every arithmetic operation the
source performs on its JavaScript numbers (`*`, `+`, `/` by 30 or 100,
`Math.min`, `Math.max`) is mirrored exactly; all concrete values arising in
the theorems below are small dyadic/decimal fractions far from any
floating-point edge case.

Runtime-nondeterministic fields of the source's result records
(`crypto.randomUUID` ids, `Date.now` timestamps, `performance.now` latencies,
cost estimates) are irrelevant to every property considered here and are
omitted from the embedded records.
-/

namespace PromptPrompter

/-- `STOPWORDS` from `frontend/constants.tsx` (a JS `Set`; the source literal
lists `'the'` twice, kept here verbatim — membership is unaffected). -/
def STOPWORDS : List String :=
  ["the", "a", "an", "and", "or", "but", "is", "are", "was", "were", "to",
   "for", "in", "on", "at", "with", "by", "please", "can", "you", "my", "me",
   "i", "the", "this", "that"]

/-- `techTerms` from `analyzePromptQuality`. -/
def techTerms : List String :=
  ["function", "class", "api", "json", "sql", "python", "react", "security",
   "latency", "optimize", "schema", "vulnerability", "asynchronous", "memory",
   "performance"]

/-- `vagueWords` from `analyzePromptQuality`. -/
def vagueWords : List String :=
  ["fix", "help", "thing", "do", "stuff", "something"]

/-- Flush the word accumulator (characters are held in reverse order). -/
def flushWord (cur : List Char) (ws : List String) : List String :=
  if cur.isEmpty then ws else String.mk cur.reverse :: ws

/-- Split a character list into maximal runs of non-whitespace characters,
mirroring JavaScript `split(/\s+/).filter(w => w.length > 0)`. -/
def wordsAux : List Char → List Char → List String
  | cur, [] => flushWord cur []
  | cur, c :: rest =>
    if c.isWhitespace then flushWord cur (wordsAux [] rest)
    else wordsAux (c :: cur) rest

/-- `prompt.toLowerCase().split(/\s+/).filter(w => w.length > 0)` from
`analyzePromptQuality`. Lower-casing is per-character (ASCII), as in the
source for all vocabulary words involved. -/
def splitWords (prompt : String) : List String :=
  wordsAux [] (prompt.toList.map Char.toLower)

/-- `words.filter(w => !STOPWORDS.has(w))` from `analyzePromptQuality`. -/
def meaningfulWords (words : List String) : List String :=
  words.filter (fun w => !decide (w ∈ STOPWORDS))

/-- The number of meaningful words. -/
def meaningfulCount (words : List String) : ℕ :=
  (meaningfulWords words).length

/-- `meaningfulWords.filter(w => techTerms.includes(w)).length`. -/
def techCount (words : List String) : ℕ :=
  ((meaningfulWords words).filter (fun w => decide (w ∈ techTerms))).length

/-- `words.filter(w => vagueWords.includes(w)).length` — over all
(lower-cased) words, stopwords included. -/
def vagueCount (words : List String) : ℕ :=
  (words.filter (fun w => decide (w ∈ vagueWords))).length

/-- `Math.min(meaningfulWords.length / 30, 1) * 100` — the
`meaningful_length` dimension. -/
def lenScoreOf (words : List String) : ℚ :=
  min ((meaningfulCount words : ℚ) / 30) 1 * 100

/-- `Math.min((techCount * 20 + meaningfulWords.length * 2) / 100, 1) * 100`
— the `specificity` dimension. -/
def specificityOf (words : List String) : ℚ :=
  min (((techCount words : ℚ) * 20 + (meaningfulCount words : ℚ) * 2) / 100) 1 * 100

/-- `Math.max(100 - vagueCount * 15, 0)` — the `clarity` dimension. -/
def clarityOf (words : List String) : ℚ :=
  max (100 - (vagueCount words : ℚ) * 15) 0

/-- The three consecutive backticks of a fenced code-block marker. -/
def codeFence : List Char := ['`', '`', '`']

/-- Whether `sub` occurs as a contiguous substring of the character list,
mirroring JavaScript `String.prototype.includes`. -/
def charsContain (sub : List Char) : List Char → Bool
  | [] => sub.isEmpty
  | c :: rest => List.isPrefixOf sub (c :: rest) || charsContain sub rest

/-- The condition `prompt.includes('\x60\x60\x60') || prompt.includes('\x7b')
|| prompt.includes('[') || prompt.match(/\d+/)` of the `context` dimension,
computed on the raw prompt. Note the source checks only the opening brace and
opening bracket characters. -/
def contextFlag (prompt : String) : Bool :=
  charsContain codeFence prompt.toList
    || prompt.toList.contains '{'
    || prompt.toList.contains '['
    || prompt.toList.any Char.isDigit

/-- `contextFlag ? 100 : 20` — the `context` dimension. -/
def contextScoreOf (prompt : String) : ℚ :=
  if contextFlag prompt then 100 else 20

/-- Whether the character list contains a digit immediately followed by `'.'`,
mirroring `prompt.match(/\d\./)`. -/
def hasDigitDot : List Char → Bool
  | [] => false
  | [_] => false
  | a :: b :: rest => (a.isDigit && b == '.') || hasDigitDot (b :: rest)

/-- The condition `(prompt.match(/\n/g) || []).length >= 2 ||
(prompt.match(/\d\./) || prompt.match(/[-*]/))` of the `structure` dimension.
Note the source's `/[-*]/` matches a dash or asterisk anywhere in the
prompt. -/
def structureFlag (prompt : String) : Bool :=
  decide ((prompt.toList.filter (fun c => c == '\n')).length ≥ 2)
    || hasDigitDot prompt.toList
    || prompt.toList.any (fun c => c == '-' || c == '*')

/-- `structureFlag ? 100 : 30` — the `structure` dimension. -/
def structureScoreOf (prompt : String) : ℚ :=
  if structureFlag prompt then 100 else 30

/-- `PromptQualityDimensions` from `frontend/types` (the source field
`structure` is a reserved word in Lean and is embedded as `structureDim`). -/
structure PromptQualityDimensions where
  specificity : ℚ
  meaningfulLength : ℚ
  context : ℚ
  clarity : ℚ
  structureDim : ℚ
deriving Repr, DecidableEq

/-- `analyzePromptQuality` from `frontend/services/apiService.ts`
(client-side five-dimension prompt quality analysis). -/
def analyzePromptQuality (prompt : String) : PromptQualityDimensions :=
  let words := splitWords prompt
  { specificity := specificityOf words
    meaningfulLength := lenScoreOf words
    context := contextScoreOf prompt
    clarity := clarityOf words
    structureDim := structureScoreOf prompt }

/-- The weighted combination `quality.specificity * 0.4 +
quality.meaningfulLength * 0.25 + quality.context * 0.15 +
quality.clarity * 0.1 + quality.structure * 0.1` computed inside
`runAnalysis`'s fallback branch. -/
def avgPromptQuality (q : PromptQualityDimensions) : ℚ :=
  q.specificity * 0.4 + q.meaningfulLength * 0.25 + q.context * 0.15
    + q.clarity * 0.1 + q.structureDim * 0.1

/-- `OptimizationResult` from `frontend/types`. -/
structure OptimizationResult where
  optimized_prompt : String
  improvement_explanation : String
  expected_score_improvement : ℚ
deriving Repr, DecidableEq

/-- The `status` field of an analysis result (`'success' | 'error'`). -/
inductive Status where
  | success
  | error
deriving Repr, DecidableEq

/-- The deterministic metric fields of `PromptMetrics` from `frontend/types`
(latency and cost are runtime-nondeterministic and omitted). -/
structure PromptMetrics where
  accuracy_score : ℚ
  semantic_similarity : ℚ
  hallucination_score : ℚ
  input_tokens : ℕ
  output_tokens : ℕ
  total_tokens : ℕ
deriving Repr, DecidableEq

/-- `AnalyzeResponse` from `frontend/services/apiService.ts` — the backend's
response shape as consumed by `runAnalysis`. -/
structure AnalyzeResponse where
  original_prompt : String
  llm_response : String
  metrics : PromptMetrics
  optimization : Option OptimizationResult
  trace_id : String
  status : Status
  error : Option String
deriving Repr, DecidableEq

/-- `AnalysisResult` from `frontend/types` (deterministic fields). -/
structure AnalysisResult where
  original_prompt : String
  llm_response : String
  metrics : PromptMetrics
  quality_dimensions : PromptQualityDimensions
  optimization : Option OptimizationResult
  status : Status
  error : Option String
deriving Repr, DecidableEq

/-- `Math.round(prompt.length / 4)` (JavaScript rounds halves up). -/
def roundQuarterLength (n : ℕ) : ℕ := (n + 2) / 4

/-- `runAnalysis` from `frontend/services/apiService.ts`. The single
interaction with the backend — `await apiAnalyze(...)` which either returns
an `AnalyzeResponse` or throws — is embedded as an explicit
`Option AnalyzeResponse` argument: `some resp` is a successful backend call
and `none` is a thrown error (backend unreachable or API error), which the
source catches and answers with the demo-mode fallback result. -/
def runAnalysis (prompt : String) (autoOptimize : Bool)
    (backend : Option AnalyzeResponse) : AnalysisResult :=
  match backend with
  | some apiResponse =>
    let quality := analyzePromptQuality prompt
    { original_prompt := apiResponse.original_prompt
      llm_response := apiResponse.llm_response
      metrics := apiResponse.metrics
      quality_dimensions := quality
      optimization := apiResponse.optimization.map (fun o =>
        { optimized_prompt := o.optimized_prompt
          improvement_explanation := o.improvement_explanation
          expected_score_improvement := o.expected_score_improvement })
      status := apiResponse.status
      error := apiResponse.error }
  | none =>
    let quality := analyzePromptQuality prompt
    let avg := avgPromptQuality quality
    { original_prompt := prompt
      llm_response := "[Demo Mode] Backend unavailable. Would analyze: \""
        ++ (prompt.take 50) ++ "...\""
      metrics :=
        { accuracy_score := min (avg / 100) 0.98
          semantic_similarity := 0.75
          hallucination_score := 0.1
          input_tokens := roundQuarterLength prompt.length
          output_tokens := 50
          total_tokens := roundQuarterLength prompt.length + 50 }
      quality_dimensions := quality
      optimization :=
        if avg < 85 then
          some { optimized_prompt := "[Optimized] " ++ prompt
                 improvement_explanation :=
                   "Demo mode: connect backend for real optimization"
                 expected_score_improvement := 0.15 }
        else none
      status := Status.success
      error := none }

/-- `!promptToUse.trim()` — true exactly when the prompt is empty or
whitespace-only. -/
def isBlank (prompt : String) : Bool :=
  prompt.toList.all Char.isWhitespace

/-- `handleAnalyze` from `App.tsx`: an empty or whitespace-only prompt is
silently ignored (early `return`, no analysis, no error); otherwise the
prompt is analyzed by `runAnalysis`. -/
def handleAnalyze (prompt : String) (autoOptimize : Bool)
    (backend : Option AnalyzeResponse) : Option AnalysisResult :=
  if isBlank prompt then none
  else some (runAnalysis prompt autoOptimize backend)

/-- Inserting whitespace-delimited tokens from the `STOPWORDS` table into a
word list: `InsertStopwords ws ws2` holds when `ws2` is `ws` with zero or
more stopword tokens inserted at arbitrary positions. -/
inductive InsertStopwords : List String → List String → Prop where
  | nil : InsertStopwords [] []
  | keep (w : String) {ws ws2 : List String} :
      InsertStopwords ws ws2 → InsertStopwords (w :: ws) (w :: ws2)
  | ins (w : String) (hw : w ∈ STOPWORDS) {ws ws2 : List String} :
      InsertStopwords ws ws2 → InsertStopwords ws (w :: ws2)

/-- Modelled from the spec: the backend's rewrite capability is not part of
the frontend sources; per the spec's `OptimizationSuggestion` contract its
`optimized_prompt` "must differ from original". A backend response respects
this when any optimization it carries differs from its original prompt. -/
def BackendRespectsNonIdentity (backend : Option AnalyzeResponse) : Prop :=
  ∀ resp o, backend = some resp → resp.optimization = some o →
    o.optimized_prompt ≠ resp.original_prompt

/-- Modelled from the spec (§4.4 AccuracyAggregator): `response_quality =
0.7*semantic_similarity + 0.3*(1 - hallucination_score)`; `final_accuracy =
(PromptQualityScore/100)*0.90 + response_quality*0.10`. This definition
follows the spec's words and is compared against the accuracy the code
actually computes. -/
def specFinalAccuracy (promptQualityScore sim hall : ℚ) : ℚ :=
  promptQualityScore / 100 * 0.90 + (0.7 * sim + 0.3 * (1 - hall)) * 0.10

lemma lenScoreOf_nonneg (ws : List String) : 0 ≤ lenScoreOf ws := by
  unfold lenScoreOf
  have h : (0 : ℚ) ≤ min ((meaningfulCount ws : ℚ) / 30) 1 :=
    le_min (by positivity) zero_le_one
  exact mul_nonneg h (by norm_num)

lemma specificityOf_nonneg (ws : List String) : 0 ≤ specificityOf ws := by
  unfold specificityOf
  have h : (0 : ℚ) ≤ min (((techCount ws : ℚ) * 20 + (meaningfulCount ws : ℚ) * 2) / 100) 1 :=
    le_min (by positivity) zero_le_one
  exact mul_nonneg h (by norm_num)

lemma clarityOf_nonneg (ws : List String) : 0 ≤ clarityOf ws :=
  le_max_right _ 0

lemma contextScoreOf_nonneg (p : String) : 0 ≤ contextScoreOf p := by
  unfold contextScoreOf
  split_ifs <;> norm_num

lemma structureScoreOf_nonneg (p : String) : 0 ≤ structureScoreOf p := by
  unfold structureScoreOf
  split_ifs <;> norm_num

lemma avg_nonneg (p : String) : 0 ≤ avgPromptQuality (analyzePromptQuality p) := by
  have h1 : 0 ≤ (analyzePromptQuality p).specificity := specificityOf_nonneg _
  have h2 : 0 ≤ (analyzePromptQuality p).meaningfulLength := lenScoreOf_nonneg _
  have h3 : 0 ≤ (analyzePromptQuality p).context := contextScoreOf_nonneg _
  have h4 : 0 ≤ (analyzePromptQuality p).clarity := clarityOf_nonneg _
  have h5 : 0 ≤ (analyzePromptQuality p).structureDim := structureScoreOf_nonneg _
  unfold avgPromptQuality
  linarith

/-- Evaluation of the quality dimensions of the sample prompt "fix code". -/
lemma fixcode_eval : analyzePromptQuality "fix code" =
    { specificity := 4, meaningfulLength := 20 / 3, context := 20,
      clarity := 85, structureDim := 30 } := by
  have h1 : meaningfulCount (splitWords "fix code") = 2 := by decide
  have h2 : techCount (splitWords "fix code") = 0 := by decide
  have h3 : vagueCount (splitWords "fix code") = 1 := by decide
  have h4 : contextFlag "fix code" = false := by decide
  have h5 : structureFlag "fix code" = false := by decide
  simp [analyzePromptQuality, lenScoreOf, specificityOf, clarityOf,
    contextScoreOf, structureScoreOf, h1, h2, h3, h4, h5]
  norm_num [min_def, max_def]

/-- Weighted quality of the sample prompt "fix code". -/
lemma fixcode_avg : avgPromptQuality (analyzePromptQuality "fix code") = 533 / 30 := by
  rw [fixcode_eval]
  unfold avgPromptQuality
  norm_num

/-- Claim C7: for the input prompt "fix code", `analyzePromptQuality` yields
`context = 20`, a clarity score of 85 (penalized below 100 for the vague word
"fix"), `specificity = 4` and `structure = 30` (their floor regions), and the
weighted prompt quality score is strictly below 20. -/
theorem C7_minimal_prompt_scenario :
    (analyzePromptQuality "fix code").context = 20
      ∧ (analyzePromptQuality "fix code").clarity = 85
      ∧ (analyzePromptQuality "fix code").clarity < 100
      ∧ (analyzePromptQuality "fix code").specificity = 4
      ∧ (analyzePromptQuality "fix code").structureDim = 30
      ∧ avgPromptQuality (analyzePromptQuality "fix code") < 20 := by
  refine ⟨by rw [fixcode_eval], by rw [fixcode_eval], ?_, by rw [fixcode_eval],
    by rw [fixcode_eval], ?_⟩
  · rw [fixcode_eval]; norm_num
  · rw [fixcode_avg]; norm_num

/-- Claim C10: whenever the backend call inside `runAnalysis` throws
(embedded as `backend = none`), the result has status `success` (never
`error`), `semantic_similarity` is the constant 0.75 and
`hallucination_score` is the constant 0.1. -/
theorem C10_fallback_fabricates_success (p : String) (auto : Bool) :
    (runAnalysis p auto none).status = Status.success
      ∧ (runAnalysis p auto none).metrics.semantic_similarity = 0.75
      ∧ (runAnalysis p auto none).metrics.hallucination_score = 0.1 :=
  ⟨rfl, rfl, rfl⟩

/-- Claim C3: in the fallback analysis the (0–100 scale) prompt quality score
carried by `accuracy_score` equals the weighted dimension combination capped
at 98 — the cap is applied after weighting — and that capped score always
lies in [0, 98]. -/
theorem C3_quality_cap (p : String) (auto : Bool) :
    (runAnalysis p auto none).metrics.accuracy_score * 100
        = min (avgPromptQuality (analyzePromptQuality p)) 98
      ∧ 0 ≤ min (avgPromptQuality (analyzePromptQuality p)) 98
      ∧ min (avgPromptQuality (analyzePromptQuality p)) 98 ≤ 98 := by
  refine ⟨?_, le_min (avg_nonneg p) (by norm_num), min_le_right _ _⟩
  have hacc : (runAnalysis p auto none).metrics.accuracy_score
      = min (avgPromptQuality (analyzePromptQuality p) / 100) 0.98 := rfl
  rw [hacc, show (0.98 : ℚ) = 98 / 100 from by norm_num,
    min_div_div_right (by norm_num : (0 : ℚ) ≤ 100),
    div_mul_cancel₀ _ (by norm_num : (100 : ℚ) ≠ 0)]

/-- Claim C1 is false as stated: with the backend unreachable and
`auto_optimize = false`, the low-quality prompt "fix code" still produces a
result carrying an `optimization` field (the fallback branch ignores
`auto_optimize` entirely). -/
theorem C1_counterexample :
    (runAnalysis "fix code" false none).optimization.isSome = true := by
  have h85 : avgPromptQuality (analyzePromptQuality "fix code") < 85 := by
    rw [fixcode_avg]; norm_num
  simp only [runAnalysis]
  rw [if_pos h85]
  rfl

/-- Claim C1, amended: in the backend-success path the `optimization` field
is present exactly when the backend's response carries one, and in the
fallback path it is present exactly when the weighted prompt quality is
below 85 — independent of `auto_optimize` and of the 0.80 accuracy
threshold. -/
theorem C1_amended (p : String) (auto : Bool) (resp : AnalyzeResponse) :
    ((runAnalysis p auto none).optimization.isSome = true
        ↔ avgPromptQuality (analyzePromptQuality p) < 85)
      ∧ (runAnalysis p auto (some resp)).optimization.isSome
          = resp.optimization.isSome := by
  constructor
  · by_cases h : avgPromptQuality (analyzePromptQuality p) < 85
    · simp only [runAnalysis]; rw [if_pos h]; simp [h]
    · simp only [runAnalysis]; rw [if_neg h]; simp [h]
  · simp only [runAnalysis]
    cases h : resp.optimization <;> simp [h]

/-- Claim C4 is false as stated: at the concrete analysis of "fix code" in
the fallback path, the final accuracy the code computes differs from the
spec's blend `(PromptQualityScore/100)*0.90 + response_quality*0.10`. -/
theorem C4_counterexample :
    (runAnalysis "fix code" true none).metrics.accuracy_score ≠
      specFinalAccuracy (min (avgPromptQuality (analyzePromptQuality "fix code")) 98)
        (runAnalysis "fix code" true none).metrics.semantic_similarity
        (runAnalysis "fix code" true none).metrics.hallucination_score := by
  have hacc : (runAnalysis "fix code" true none).metrics.accuracy_score
      = min (avgPromptQuality (analyzePromptQuality "fix code") / 100) 0.98 := rfl
  have hsim : (runAnalysis "fix code" true none).metrics.semantic_similarity = 0.75 := rfl
  have hhall : (runAnalysis "fix code" true none).metrics.hallucination_score = 0.1 := rfl
  rw [hacc, hsim, hhall, fixcode_avg]
  unfold specFinalAccuracy
  norm_num [min_def]

/-- Claim C4, amended: the fallback analysis computes no response-quality
blend at all — `accuracy_score` is `min(weighted quality / 100, 0.98)`, the
reported `semantic_similarity` and `hallucination_score` are the constants
0.75 and 0.1, and the final accuracy does lie in [0, 1]. -/
theorem C4_amended (p : String) (auto : Bool) :
    (runAnalysis p auto none).metrics.accuracy_score
        = min (avgPromptQuality (analyzePromptQuality p) / 100) 0.98
      ∧ (runAnalysis p auto none).metrics.semantic_similarity = 0.75
      ∧ (runAnalysis p auto none).metrics.hallucination_score = 0.1
      ∧ 0 ≤ (runAnalysis p auto none).metrics.accuracy_score
      ∧ (runAnalysis p auto none).metrics.accuracy_score ≤ 1 := by
  have hacc : (runAnalysis p auto none).metrics.accuracy_score
      = min (avgPromptQuality (analyzePromptQuality p) / 100) 0.98 := rfl
  refine ⟨rfl, rfl, rfl, ?_, ?_⟩
  · rw [hacc]
    exact le_min (div_nonneg (avg_nonneg p) (by norm_num)) (by norm_num)
  · rw [hacc]
    exact le_trans (min_le_right _ _) (by norm_num)

/-- Claim C5 is false as stated: the prompt consisting of a single closing
brace contains a brace character, yet its `context` dimension is 20, not
100 (the source checks only the opening brace and opening bracket). -/
theorem C5_counterexample :
    '}' ∈ "\x7d".toList ∧ (analyzePromptQuality "\x7d").context = 20 := by
  refine ⟨by decide, ?_⟩
  have h : contextFlag "\x7d" = false := by decide
  simp [analyzePromptQuality, contextScoreOf, h]

/-- Claim C5, amended: `context` is 100 exactly when the prompt contains a
fenced code-block marker, an opening brace, an opening bracket, or a digit
(closing braces and brackets do not count), and is 20 otherwise. -/
theorem C5_amended (p : String) :
    ((analyzePromptQuality p).context
        = if charsContain codeFence p.toList = true ∨ '{' ∈ p.toList ∨ '[' ∈ p.toList
            ∨ (∃ c ∈ p.toList, c.isDigit = true) then 100 else 20)
      ∧ ((analyzePromptQuality p).context = 100 ∨ (analyzePromptQuality p).context = 20) := by
  have hc : (analyzePromptQuality p).context = contextScoreOf p := rfl
  constructor
  · rw [hc]
    unfold contextScoreOf
    refine if_congr ?_ rfl rfl
    simp only [contextFlag, Bool.or_eq_true, List.elem_iff, List.any_eq_true]
    tauto
  · rw [hc]
    unfold contextScoreOf
    split_ifs <;> simp

/-- Claim C6 is false as stated: "well-known" has no line break, no
numbered-list marker and no line-start bullet (its first character is 'w'),
yet its mid-word dash makes the `structure` dimension 100 (the source's
`/[-*]/` matches a dash or asterisk anywhere). -/
theorem C6_counterexample :
    "well-known".toList.contains '\n' = false
      ∧ hasDigitDot "well-known".toList = false
      ∧ "well-known".toList.head? = some 'w'
      ∧ (analyzePromptQuality "well-known").structureDim = 100 := by
  refine ⟨by decide, by decide, by decide, ?_⟩
  have h : structureFlag "well-known" = true := by decide
  simp [analyzePromptQuality, structureScoreOf, h]

/-- Claim C6, amended: `structure` is 100 exactly when the prompt contains
at least two line breaks, or a digit immediately followed by '.', or a dash
or asterisk anywhere in the prompt (not only at line starts), and is 30
otherwise. -/
theorem C6_amended (p : String) :
    ((analyzePromptQuality p).structureDim
        = if 2 ≤ (p.toList.filter (fun c => c == '\n')).length
            ∨ hasDigitDot p.toList = true
            ∨ (∃ c ∈ p.toList, c = '-' ∨ c = '*') then 100 else 30)
      ∧ ((analyzePromptQuality p).structureDim = 100
          ∨ (analyzePromptQuality p).structureDim = 30) := by
  have hc : (analyzePromptQuality p).structureDim = structureScoreOf p := rfl
  constructor
  · rw [hc]
    unfold structureScoreOf
    refine if_congr ?_ rfl rfl
    simp only [structureFlag, Bool.or_eq_true, decide_eq_true_eq, List.any_eq_true,
      beq_iff_eq]
    constructor
    · rintro ((h | h) | ⟨c, hc, h⟩)
      · exact Or.inl h
      · exact Or.inr (Or.inl h)
      · exact Or.inr (Or.inr ⟨c, hc, h⟩)
    · rintro (h | h | ⟨c, hc, h⟩)
      · exact Or.inl (Or.inl h)
      · exact Or.inl (Or.inr h)
      · exact Or.inr ⟨c, hc, h⟩
  · rw [hc]
    unfold structureScoreOf
    split_ifs <;> simp

lemma stop_not_vague : ∀ w ∈ STOPWORDS, w ∉ vagueWords := by decide

lemma insertStopwords_filter_eq {ws ws2 : List String} (h : InsertStopwords ws ws2) :
    meaningfulWords ws2 = meaningfulWords ws
      ∧ ws2.filter (fun w => decide (w ∈ vagueWords))
          = ws.filter (fun w => decide (w ∈ vagueWords)) := by
  induction h with
  | nil => exact ⟨rfl, rfl⟩
  | keep w h ih =>
      unfold meaningfulWords at *
      simp only [List.filter_cons, ih.1, ih.2]
      exact ⟨trivial, trivial⟩
  | ins w hw h ih =>
      have h1 : (!decide (w ∈ STOPWORDS)) = false := by simp [hw]
      have h2 : decide (w ∈ vagueWords) = false := by
        simpa using stop_not_vague w hw
      unfold meaningfulWords at *
      simp only [List.filter_cons, h1, h2, Bool.false_eq_true, if_false, ih.1, ih.2]
      exact ⟨trivial, trivial⟩

/-- Claim C2 is false as stated: "thanks" is not in the source's `STOPWORDS`
set, so inserting the whitespace-delimited token "thanks" into the prompt
"hello" changes both the `meaningful_length` and the `specificity` scores. -/
theorem C2_counterexample :
    (analyzePromptQuality "hello thanks").meaningfulLength
        ≠ (analyzePromptQuality "hello").meaningfulLength
      ∧ (analyzePromptQuality "hello thanks").specificity
          ≠ (analyzePromptQuality "hello").specificity := by
  have h1 : meaningfulCount (splitWords "hello thanks") = 2 := by decide
  have h2 : meaningfulCount (splitWords "hello") = 1 := by decide
  have h3 : techCount (splitWords "hello thanks") = 0 := by decide
  have h4 : techCount (splitWords "hello") = 0 := by decide
  constructor
  · show lenScoreOf (splitWords "hello thanks") ≠ lenScoreOf (splitWords "hello")
    unfold lenScoreOf
    rw [h1, h2]
    norm_num [min_def]
  · show specificityOf (splitWords "hello thanks") ≠ specificityOf (splitWords "hello")
    unfold specificityOf
    rw [h1, h2, h3, h4]
    norm_num [min_def]

/-- Claim C2, amended: inserting only whitespace-delimited tokens from the
source's `STOPWORDS` set (which contains "please" and "my" but not "thanks")
into a prompt leaves the `meaningful_length`, `specificity` and `clarity`
scores of `analyzePromptQuality` unchanged. -/
theorem C2_amended (p1 p2 : String)
    (h : InsertStopwords (splitWords p1) (splitWords p2)) :
    (analyzePromptQuality p2).meaningfulLength = (analyzePromptQuality p1).meaningfulLength
      ∧ (analyzePromptQuality p2).specificity = (analyzePromptQuality p1).specificity
      ∧ (analyzePromptQuality p2).clarity = (analyzePromptQuality p1).clarity := by
  obtain ⟨hm, hv⟩ := insertStopwords_filter_eq h
  refine ⟨?_, ?_, ?_⟩
  · show lenScoreOf (splitWords p2) = lenScoreOf (splitWords p1)
    unfold lenScoreOf meaningfulCount
    rw [hm]
  · show specificityOf (splitWords p2) = specificityOf (splitWords p1)
    unfold specificityOf techCount meaningfulCount
    rw [hm]
  · show clarityOf (splitWords p2) = clarityOf (splitWords p1)
    unfold clarityOf vagueCount
    rw [hv]

/-- Witness for the amended claim C2 at a concrete insertion: adding the
stopwords "please" and "my" to "hello world" leaves all three scores
unchanged. -/
theorem C2_witness :
    (analyzePromptQuality "please hello my world").meaningfulLength
        = (analyzePromptQuality "hello world").meaningfulLength
      ∧ (analyzePromptQuality "please hello my world").specificity
          = (analyzePromptQuality "hello world").specificity
      ∧ (analyzePromptQuality "please hello my world").clarity
          = (analyzePromptQuality "hello world").clarity :=
  C2_amended "hello world" "please hello my world" (by
    have e1 : splitWords "hello world" = ["hello", "world"] := by decide
    have e2 : splitWords "please hello my world"
        = ["please", "hello", "my", "world"] := by decide
    rw [e1, e2]
    exact InsertStopwords.ins "please" (by decide)
      (InsertStopwords.keep "hello"
        (InsertStopwords.ins "my" (by decide)
          (InsertStopwords.keep "world" InsertStopwords.nil))))

/-- Claim C8 is false as stated: a whitespace-only prompt passed to
`runAnalysis` (the analysis pipeline, here with the backend throwing) is not
rejected with a validation error — it is scored by the feature extractor and
returned with status `success`, no error, and accuracy 0.16. -/
theorem C8_counterexample :
    isBlank "   " = true
      ∧ (runAnalysis "   " true none).status = Status.success
      ∧ (runAnalysis "   " true none).error = none
      ∧ (runAnalysis "   " true none).metrics.accuracy_score = 4 / 25 := by
  refine ⟨by decide, rfl, rfl, ?_⟩
  have h1 : meaningfulCount (splitWords "   ") = 0 := by decide
  have h2 : techCount (splitWords "   ") = 0 := by decide
  have h3 : vagueCount (splitWords "   ") = 0 := by decide
  have h4 : contextFlag "   " = false := by decide
  have h5 : structureFlag "   " = false := by decide
  have havg : avgPromptQuality (analyzePromptQuality "   ") = 16 := by
    simp [avgPromptQuality, analyzePromptQuality, lenScoreOf, specificityOf,
      clarityOf, contextScoreOf, structureScoreOf, h1, h2, h3, h4, h5]
    norm_num [min_def, max_def]
  have hacc : (runAnalysis "   " true none).metrics.accuracy_score
      = min (avgPromptQuality (analyzePromptQuality "   ") / 100) 0.98 := rfl
  rw [hacc, havg]
  norm_num [min_def]

/-- Claim C8, amended: the UI entry point `handleAnalyze` silently ignores an
empty or whitespace-only prompt — it performs no analysis and surfaces no
error — while `runAnalysis` itself performs no validation. -/
theorem C8_amended (p : String) (auto : Bool) (b : Option AnalyzeResponse)
    (h : isBlank p = true) : handleAnalyze p auto b = none := by
  simp [handleAnalyze, h]

/-- Witness for the amended claim C8 at a concrete whitespace-only prompt. -/
theorem C8_witness : isBlank " " = true ∧ handleAnalyze " " true none = none :=
  ⟨by decide, C8_amended " " true none (by decide)⟩

/-- Claim C9: whenever the `optimization` field of a `runAnalysis` result is
present, its `optimized_prompt` differs from the result's `original_prompt`.
In the fallback path the prefix "[Optimized] " forces a strictly longer
string; in the backend path this holds under the spec-modelled backend
contract `BackendRespectsNonIdentity`. -/
theorem C9_nonidentity (p : String) (auto : Bool) (b : Option AnalyzeResponse)
    (o : OptimizationResult) (hb : BackendRespectsNonIdentity b)
    (ho : (runAnalysis p auto b).optimization = some o) :
    o.optimized_prompt ≠ (runAnalysis p auto b).original_prompt := by
  cases b with
  | some resp =>
      have hopt : (runAnalysis p auto (some resp)).optimization
          = resp.optimization.map (fun q =>
              { optimized_prompt := q.optimized_prompt
                improvement_explanation := q.improvement_explanation
                expected_score_improvement := q.expected_score_improvement }) := rfl
      rw [hopt] at ho
      rcases Option.map_eq_some'.1 ho with ⟨o0, ho0, rfl⟩
      exact hb resp o0 rfl ho0
  | none =>
      by_cases h85 : avgPromptQuality (analyzePromptQuality p) < 85
      · have hopt : (runAnalysis p auto none).optimization
            = some { optimized_prompt := "[Optimized] " ++ p,
                     improvement_explanation :=
                       "Demo mode: connect backend for real optimization",
                     expected_score_improvement := 0.15 } := by
          simp only [runAnalysis]
          rw [if_pos h85]
        rw [hopt] at ho
        have hoeq := Option.some.inj ho
        subst hoeq
        show "[Optimized] " ++ p ≠ p
        intro heq
        have hlen := congrArg String.length heq
        rw [String.length_append] at hlen
        have h12 : ("[Optimized] ").length = 12 := rfl
        rw [h12] at hlen
        omega
      · have hopt : (runAnalysis p auto none).optimization = none := by
          simp only [runAnalysis]
          rw [if_neg h85]
        rw [hopt] at ho
        exact absurd ho (by simp)

/-- Witness for claim C9 at the concrete fallback analysis of "fix code". -/
theorem C9_witness :
    ({ optimized_prompt := "[Optimized] fix code",
       improvement_explanation := "Demo mode: connect backend for real optimization",
       expected_score_improvement := 0.15 } : OptimizationResult).optimized_prompt
      ≠ (runAnalysis "fix code" true none).original_prompt :=
  C9_nonidentity "fix code" true none _ (fun resp o h => nomatch h) (by
    have h85 : avgPromptQuality (analyzePromptQuality "fix code") < 85 := by
      rw [fixcode_avg]; norm_num
    simp only [runAnalysis]
    rw [if_pos h85]
    rfl)

end PromptPrompter
